import Mathlib

/-!
GreenHouse window actuator.

A shallow embedding of `src/greenhouse/Window.cpp` (class `Window`, declared in
`src/windows/Window.h`) together with the properties of its state machine.

The Arduino runtime the class talks to (`digitalWrite`, `digitalRead`, `pinMode`,
`millis`, `Serial`) is not part of the repository.  It is represented by an explicit
`Board` value threaded through every member function, and by the clock value handed to
the functions that call `millis()`.  The width of `unsigned long` is a parameter `bits`.
-/

namespace GreenHouse

/-! ## The board -/

/-- Modelled from the spec: the logic level of a digital line, `level ∈ {LOW, HIGH}`
(the macros `LOW` and `HIGH` of the absent `Arduino.h`). -/
inductive Level where
  | LOW
  | HIGH
deriving DecidableEq

/-- Modelled from the spec: the pin configurations of the GPIO driver,
`configure_output(pin)` and `configure_input_with_pullup(pin)` (the macros `INPUT`,
`OUTPUT` and `INPUT_PULLUP` of the absent `Arduino.h`). -/
inductive PinMode where
  | INPUT
  | OUTPUT
  | INPUT_PULLUP
deriving DecidableEq

/-- Modelled from the spec: the collaborators of the controller seen as one value.
`output p` is the level last written to pin `p` (the output latch), `input p` is the
level a read of pin `p` returns (driven by the environment: the limit switches),
`mode p` is the configuration of pin `p`, and `serial` is the diagnostic sink, one
entry per emitted line, oldest first. -/
structure Board where
  output : Int → Level
  input : Int → Level
  mode : Int → PinMode
  serial : List String

/-- Modelled from the spec: `write(pin, level)` of the GPIO driver. Only the latch of
`pin` changes. -/
def digitalWrite (pin : Int) (val : Level) (b : Board) : Board :=
  { b with output := fun p => if p = pin then val else b.output p }

/-- Modelled from the spec: `read(pin) -> level` of the GPIO driver. -/
def digitalRead (pin : Int) (b : Board) : Level :=
  b.input pin

/-- Modelled from the spec: `configure_output(pin)` / `configure_input_with_pullup(pin)`
of the GPIO driver, as the single Arduino entry point `pinMode(pin, mode)`. -/
def pinMode (pin : Int) (m : PinMode) (b : Board) : Board :=
  { b with mode := fun p => if p = pin then m else b.mode p }

/-- Modelled from the spec: `emit(message)` of the diagnostic sink (`Serial.println`). -/
def Serial.println (msg : String) (b : Board) : Board :=
  { b with serial := b.serial ++ [msg] }

/-- Addition of two `unsigned long` values of `bits` bits, as in `millis() + _moveTimeout`:
the sum is reduced modulo `2 ^ bits`. The width of `unsigned long` depends on the
board, so it is a parameter. -/
def ulongAdd (bits a c : Nat) : Nat :=
  (a + c) % 2 ^ bits

/-! ## The window -/

/-- State constant of the source: `#define IDLE_STATE 0`. -/
abbrev IDLE_STATE : Int := 0

/-- State constant of the source: `#define OPENING_STATE 1`. -/
abbrev OPENING_STATE : Int := 1

/-- State constant of the source: `#define CLOSING_STATE 2`. -/
abbrev CLOSING_STATE : Int := 2

/-- State constant of the source: `#define TIMEOUT_STATE 3`. -/
abbrev TIMEOUT_STATE : Int := 3

/-- The members of `class Window`: the public `description` and the private
configuration and state fields. -/
structure Window where
  description : String
  _directionPin : Int
  _motorPin : Int
  _openedPin : Int
  _closedPin : Int
  _moveTimeout : Nat
  _state : Int
  _moveDeadline : Nat

/-- The constructor `Window::Window`: stores the configuration, state idle, deadline 0. -/
def Window.new (description : String) (directionPin motorPin openedPin closedPin : Int)
    (moveTimeout : Nat) : Window :=
  { description := description
    _directionPin := directionPin
    _motorPin := motorPin
    _openedPin := openedPin
    _closedPin := closedPin
    _moveTimeout := moveTimeout
    _state := IDLE_STATE
    _moveDeadline := 0 }

/-- Member `Window::setup`: both outputs are written low and made outputs, both sensor pins are
made inputs with pull-up. No member is assigned. -/
def Window.setup (self : Window) (b : Board) : Window × Board :=
  let b := digitalWrite self._directionPin Level.LOW b
  let b := pinMode self._directionPin PinMode.OUTPUT b
  let b := digitalWrite self._motorPin Level.LOW b
  let b := pinMode self._motorPin PinMode.OUTPUT b
  let b := pinMode self._openedPin PinMode.INPUT_PULLUP b
  let b := pinMode self._closedPin PinMode.INPUT_PULLUP b
  (self, b)

/-- Member `Window::isOpen`: `LOW == digitalRead(_openedPin)`. -/
def Window.isOpen (self : Window) (b : Board) : Bool :=
  Level.LOW == digitalRead self._openedPin b

/-- Member `Window::isClosed`: `LOW == digitalRead(_closedPin)`. -/
def Window.isClosed (self : Window) (b : Board) : Bool :=
  Level.LOW == digitalRead self._closedPin b

/-- Member `Window::isMoving`: `OPENING_STATE == _state || CLOSING_STATE == _state`. -/
def Window.isMoving (self : Window) : Bool :=
  OPENING_STATE == self._state || CLOSING_STATE == self._state

/-- Member `Window::hasTimedOut`: `TIMEOUT_STATE == _state`. -/
def Window.hasTimedOut (self : Window) : Bool :=
  TIMEOUT_STATE == self._state

/-- Member `Window::open`, called when `millis()` returns `millis`. -/
def Window.open (bits millis : Nat) (self : Window) (b : Board) : Window × Board :=
  if OPENING_STATE != self._state && !self.isOpen b then
    let b := Serial.println ("Opening window " ++ self.description ++ ".") b
    let b := digitalWrite self._directionPin Level.LOW b
    let b := digitalWrite self._motorPin Level.HIGH b
    ({ self with
        _state := OPENING_STATE
        _moveDeadline := ulongAdd bits millis self._moveTimeout }, b)
  else
    (self, b)

/-- Member `Window::close`, called when `millis()` returns `millis`. -/
def Window.close (bits millis : Nat) (self : Window) (b : Board) : Window × Board :=
  if CLOSING_STATE != self._state && !self.isClosed b then
    let b := Serial.println ("Closing window " ++ self.description ++ ".") b
    let b := digitalWrite self._directionPin Level.HIGH b
    let b := digitalWrite self._motorPin Level.HIGH b
    ({ self with
        _state := CLOSING_STATE
        _moveDeadline := ulongAdd bits millis self._moveTimeout }, b)
  else
    (self, b)

/-- Member `Window::stop`. -/
def Window.stop (self : Window) (b : Board) : Window × Board :=
  if IDLE_STATE != self._state then
    let b := Serial.println ("Stopping window " ++ self.description ++ ".") b
    let b := digitalWrite self._directionPin Level.LOW b
    let b := digitalWrite self._motorPin Level.LOW b
    ({ self with _state := IDLE_STATE, _moveDeadline := 0 }, b)
  else
    (self, b)

/-- Member `Window::autostop`, called when `millis()` returns `millis`. The three branches are
tried in the order of the source. -/
def Window.autostop (millis : Nat) (self : Window) (b : Board) : Window × Board :=
  if OPENING_STATE == self._state && self.isOpen b then
    let b := Serial.println ("Window " ++ self.description ++ " has been opened.") b
    let b := digitalWrite self._directionPin Level.LOW b
    let b := digitalWrite self._motorPin Level.LOW b
    ({ self with _state := IDLE_STATE, _moveDeadline := 0 }, b)
  else if CLOSING_STATE == self._state && self.isClosed b then
    let b := Serial.println ("Window " ++ self.description ++ " has been closed.") b
    let b := digitalWrite self._directionPin Level.LOW b
    let b := digitalWrite self._motorPin Level.LOW b
    ({ self with _state := IDLE_STATE, _moveDeadline := 0 }, b)
  else if self.isMoving && decide (millis ≥ self._moveDeadline) then
    let b := Serial.println
      ("Window " ++ self.description ++ " is moving too slowly, stopping.") b
    let b := digitalWrite self._directionPin Level.LOW b
    let b := digitalWrite self._motorPin Level.LOW b
    ({ self with _state := TIMEOUT_STATE, _moveDeadline := 0 }, b)
  else
    (self, b)

/-! ## Sequences of calls -/

/-- The four state-changing member functions. -/
inductive Command where
  | open
  | close
  | stop
  | autostop
deriving DecidableEq

/-- One step of a history of the actuator: either a member function is called while
the clock reads `millis`, or the environment puts level `val` on the input of `pin`
(a limit switch closes or opens). -/
inductive Event where
  | call (c : Command) (millis : Nat)
  | sense (pin : Int) (val : Level)
deriving DecidableEq

/-- The level `val` appears on the input of `pin`; nothing else changes. -/
def Board.sense (pin : Int) (val : Level) (b : Board) : Board :=
  { b with input := fun p => if p = pin then val else b.input p }

/-- Calls the member function named by `c`. -/
def Window.exec (bits : Nat) (c : Command) (millis : Nat) (self : Window) (b : Board) :
    Window × Board :=
  match c with
  | Command.open => Window.open bits millis self b
  | Command.close => Window.close bits millis self b
  | Command.stop => Window.stop self b
  | Command.autostop => Window.autostop millis self b

/-- The effect of one event on the actuator and its board. -/
def Event.apply (bits : Nat) (e : Event) (s : Window × Board) : Window × Board :=
  match e with
  | Event.call c millis => Window.exec bits c millis s.1 s.2
  | Event.sense pin val => (s.1, Board.sense pin val s.2)

/-- The effect of a finite sequence of events, first event first. -/
def run (bits : Nat) (evs : List Event) (s : Window × Board) : Window × Board :=
  evs.foldl (fun acc e => Event.apply bits e acc) s

/-- A board at power-on: every latch low, every input high (pull-ups, no switch
closed), every pin an input, nothing emitted. -/
def Board.powerOn : Board :=
  { output := fun _ => Level.LOW
    input := fun _ => Level.HIGH
    mode := fun _ => PinMode.INPUT
    serial := [] }

/-- The window of the scenarios of the specification: direction on pin 2, motor on
pin 3, opened switch on pin 4, closed switch on pin 5, move timeout 5000. -/
def scenarioWindow : Window :=
  Window.new "scenario" 2 3 4 5 5000

/-! ## Queries and whole-object operations -/

/-- The four queries of the class. -/
inductive Query where
  | isOpen
  | isClosed
  | isMoving
  | hasTimedOut
deriving DecidableEq

/-- Calls the query named by `q`: the value it returns, followed by the window and the
board after the call. The body of each query is a single `return` of a comparison: it
assigns no member, writes no pin and emits nothing. -/
def Window.query (q : Query) (self : Window) (b : Board) : Bool × Window × Board :=
  match q with
  | Query.isOpen => (self.isOpen b, self, b)
  | Query.isClosed => (self.isClosed b, self, b)
  | Query.isMoving => (self.isMoving, self, b)
  | Query.hasTimedOut => (self.hasTimedOut, self, b)

/-- The public member functions of the class: `setup`, the four commands (with the
clock value at the call) and the four queries. -/
inductive Operation where
  | setup
  | command (c : Command) (millis : Nat)
  | query (q : Query)
deriving DecidableEq

/-- Calls the member function named by `op`; the value returned by a query is dropped. -/
def Window.perform (bits : Nat) (op : Operation) (self : Window) (b : Board) :
    Window × Board :=
  match op with
  | Operation.setup => Window.setup self b
  | Operation.command c millis => Window.exec bits c millis self b
  | Operation.query q => (Window.query q self b).2

/-- Two `Window` objects wired to one board, and a member function called on the first
one. A member function reads and assigns members of its own object only, so the second
object is handed back as it is; the board is shared. -/
def performFirst (bits : Nat) (op : Operation) (sys : Window × Window × Board) :
    Window × Window × Board :=
  ((Window.perform bits op sys.1 sys.2.2).1, sys.2.1,
    (Window.perform bits op sys.1 sys.2.2).2)

/-- A second window for the two-actuator scenarios: direction on pin 6, motor on pin 7,
opened switch on pin 8, closed switch on pin 9, move timeout 8000. -/
def secondWindow : Window :=
  Window.new "second" 6 7 8 9 8000

/-- The relation between the state and the latch of the direction pin that the commands
maintain: low while opening (when the direction pin is not also the motor pin, which is
written after it), high while closing, low otherwise. -/
def DirectionInv (s : Window × Board) : Prop :=
  (s.1._directionPin ≠ s.1._motorPin → s.1._state = OPENING_STATE →
    s.2.output s.1._directionPin = Level.LOW) ∧
  (s.1._state = CLOSING_STATE → s.2.output s.1._directionPin = Level.HIGH) ∧
  (s.1._state ≠ OPENING_STATE ∧ s.1._state ≠ CLOSING_STATE →
    s.2.output s.1._directionPin = Level.LOW)

/-! ## Facts about single calls -/

/-- A call never changes the configuration of the window. -/
theorem exec_config (bits : Nat) (c : Command) (now : Nat) (self : Window) (b : Board) :
    (Window.exec bits c now self b).1.description = self.description ∧
    (Window.exec bits c now self b).1._directionPin = self._directionPin ∧
    (Window.exec bits c now self b).1._motorPin = self._motorPin ∧
    (Window.exec bits c now self b).1._openedPin = self._openedPin ∧
    (Window.exec bits c now self b).1._closedPin = self._closedPin ∧
    (Window.exec bits c now self b).1._moveTimeout = self._moveTimeout := by
  cases c
  · simp only [Window.exec, Window.open]
    split_ifs <;> simp
  · simp only [Window.exec, Window.close]
    split_ifs <;> simp
  · simp only [Window.exec, Window.stop]
    split_ifs <;> simp
  · simp only [Window.exec, Window.autostop]
    split_ifs <;> simp

/-- An event never changes the pins or the timeout of the window. -/
theorem apply_config (bits : Nat) (e : Event) (s : Window × Board) :
    (Event.apply bits e s).1._motorPin = s.1._motorPin ∧
    (Event.apply bits e s).1._directionPin = s.1._directionPin ∧
    (Event.apply bits e s).1._moveTimeout = s.1._moveTimeout := by
  cases e with
  | call c now =>
    have h := exec_config bits c now s.1 s.2
    exact ⟨h.2.2.1, h.2.1, h.2.2.2.2.2⟩
  | sense pin val => exact ⟨rfl, rfl, rfl⟩

/-- A sequence of events never changes the pins or the timeout of the window. -/
theorem run_config (bits : Nat) (evs : List Event) (s : Window × Board) :
    (run bits evs s).1._motorPin = s.1._motorPin ∧
    (run bits evs s).1._directionPin = s.1._directionPin ∧
    (run bits evs s).1._moveTimeout = s.1._moveTimeout := by
  induction evs generalizing s with
  | nil => exact ⟨rfl, rfl, rfl⟩
  | cons e rest ih =>
    have h := apply_config bits e s
    have h2 := ih (Event.apply bits e s)
    simp only [run, List.foldl_cons] at h2 ⊢
    exact ⟨h2.1.trans h.1, h2.2.1.trans h.2.1, h2.2.2.trans h.2.2⟩

/-- The motor latch is high exactly in the two moving states: kept by every call. -/
theorem exec_motor (bits : Nat) (c : Command) (now : Nat) (self : Window) (b : Board)
    (h : b.output self._motorPin = Level.HIGH ↔
      (self._state = OPENING_STATE ∨ self._state = CLOSING_STATE)) :
    (Window.exec bits c now self b).2.output (Window.exec bits c now self b).1._motorPin
        = Level.HIGH ↔
      ((Window.exec bits c now self b).1._state = OPENING_STATE ∨
        (Window.exec bits c now self b).1._state = CLOSING_STATE) := by
  cases c
  · simp only [Window.exec, Window.open]
    split_ifs
    · simp [digitalWrite, Serial.println]
    · exact h
  · simp only [Window.exec, Window.close]
    split_ifs
    · simp [digitalWrite, Serial.println]
    · exact h
  · simp only [Window.exec, Window.stop]
    split_ifs
    · simp [digitalWrite, Serial.println]
    · exact h
  · simp only [Window.exec, Window.autostop]
    split_ifs
    · simp [digitalWrite, Serial.println]
    · simp [digitalWrite, Serial.println]
    · simp [digitalWrite, Serial.println]
    · exact h

/-- The motor latch is high exactly in the two moving states: kept by every sequence of
events. -/
theorem run_motor (bits : Nat) (evs : List Event) (s : Window × Board)
    (h : s.2.output s.1._motorPin = Level.HIGH ↔
      (s.1._state = OPENING_STATE ∨ s.1._state = CLOSING_STATE)) :
    (run bits evs s).2.output (run bits evs s).1._motorPin = Level.HIGH ↔
      ((run bits evs s).1._state = OPENING_STATE ∨
        (run bits evs s).1._state = CLOSING_STATE) := by
  induction evs generalizing s with
  | nil => exact h
  | cons e rest ih =>
    simp only [run, List.foldl_cons]
    apply ih
    cases e with
    | call c now => exact exec_motor bits c now s.1 s.2 h
    | sense pin val => exact h

/-- After `setup()` on a freshly constructed window the motor latch is low and the
state is idle. -/
theorem setup_new_motor (description : String)
    (directionPin motorPin openedPin closedPin : Int) (moveTimeout : Nat) (b : Board) :
    (Window.setup (Window.new description directionPin motorPin openedPin closedPin
        moveTimeout) b).2.output
      (Window.setup (Window.new description directionPin motorPin openedPin closedPin
        moveTimeout) b).1._motorPin = Level.HIGH ↔
    ((Window.setup (Window.new description directionPin motorPin openedPin closedPin
        moveTimeout) b).1._state = OPENING_STATE ∨
      (Window.setup (Window.new description directionPin motorPin openedPin closedPin
        moveTimeout) b).1._state = CLOSING_STATE) := by
  simp [Window.setup, Window.new, digitalWrite, pinMode]

/-- Outside the two moving states the deadline is 0: kept by every call. -/
theorem exec_cleared (bits : Nat) (c : Command) (now : Nat) (self : Window) (b : Board)
    (h : self._state ≠ OPENING_STATE ∧ self._state ≠ CLOSING_STATE →
      self._moveDeadline = 0) :
    (Window.exec bits c now self b).1._state ≠ OPENING_STATE ∧
      (Window.exec bits c now self b).1._state ≠ CLOSING_STATE →
    (Window.exec bits c now self b).1._moveDeadline = 0 := by
  cases c
  · simp only [Window.exec, Window.open]
    split_ifs
    · simp
    · exact h
  · simp only [Window.exec, Window.close]
    split_ifs
    · simp
    · exact h
  · simp only [Window.exec, Window.stop]
    split_ifs
    · simp
    · exact h
  · simp only [Window.exec, Window.autostop]
    split_ifs
    · simp
    · simp
    · simp
    · exact h

/-- Outside the two moving states the deadline is 0: kept by every sequence of events. -/
theorem run_cleared (bits : Nat) (evs : List Event) (s : Window × Board)
    (h : s.1._state ≠ OPENING_STATE ∧ s.1._state ≠ CLOSING_STATE →
      s.1._moveDeadline = 0) :
    (run bits evs s).1._state ≠ OPENING_STATE ∧
      (run bits evs s).1._state ≠ CLOSING_STATE →
    (run bits evs s).1._moveDeadline = 0 := by
  induction evs generalizing s with
  | nil => exact h
  | cons e rest ih =>
    simp only [run, List.foldl_cons]
    apply ih
    cases e with
    | call c now => exact exec_cleared bits c now s.1 s.2 h
    | sense pin val => exact h

/-- The deadline is non-zero exactly in the two moving states: kept by every call whose
deadline computation, if it is `open()` or `close()`, does not wrap to 0. -/
theorem exec_deadline (bits : Nat) (c : Command) (now : Nat) (self : Window) (b : Board)
    (hc : c = Command.open ∨ c = Command.close →
      (now + self._moveTimeout) % 2 ^ bits ≠ 0)
    (h : self._moveDeadline ≠ 0 ↔
      (self._state = OPENING_STATE ∨ self._state = CLOSING_STATE)) :
    (Window.exec bits c now self b).1._moveDeadline ≠ 0 ↔
      ((Window.exec bits c now self b).1._state = OPENING_STATE ∨
        (Window.exec bits c now self b).1._state = CLOSING_STATE) := by
  cases c
  · simp only [Window.exec, Window.open]
    split_ifs
    · have h0 := hc (Or.inl rfl)
      simp [ulongAdd, h0]
    · exact h
  · simp only [Window.exec, Window.close]
    split_ifs
    · have h0 := hc (Or.inr rfl)
      simp [ulongAdd, h0]
    · exact h
  · simp only [Window.exec, Window.stop]
    split_ifs
    · simp
    · exact h
  · simp only [Window.exec, Window.autostop]
    split_ifs
    · simp
    · simp
    · simp
    · exact h

/-- The deadline is non-zero exactly in the two moving states: kept by every sequence
of events in which no `open()` or `close()` is called at a clock value whose sum with
the timeout is a multiple of `2 ^ bits`. -/
theorem run_deadline (bits : Nat) (evs : List Event) (s : Window × Board)
    (hc : ∀ now, Event.call Command.open now ∈ evs ∨ Event.call Command.close now ∈ evs →
      (now + s.1._moveTimeout) % 2 ^ bits ≠ 0)
    (h : s.1._moveDeadline ≠ 0 ↔
      (s.1._state = OPENING_STATE ∨ s.1._state = CLOSING_STATE)) :
    (run bits evs s).1._moveDeadline ≠ 0 ↔
      ((run bits evs s).1._state = OPENING_STATE ∨
        (run bits evs s).1._state = CLOSING_STATE) := by
  induction evs generalizing s with
  | nil => exact h
  | cons e rest ih =>
    simp only [run, List.foldl_cons]
    apply ih
    · intro now hnow
      rw [(apply_config bits e s).2.2]
      apply hc now
      rcases hnow with hnow | hnow
      · exact Or.inl (List.mem_cons_of_mem _ hnow)
      · exact Or.inr (List.mem_cons_of_mem _ hnow)
    · cases e with
      | call c now =>
        apply exec_deadline bits c now s.1 s.2 _ h
        intro hcmd
        apply hc now
        rcases hcmd with hcmd | hcmd
        · subst hcmd
          exact Or.inl (List.mem_cons_self _ _)
        · subst hcmd
          exact Or.inr (List.mem_cons_self _ _)
      | sense pin val => exact h

/-- From the constructed window after `setup()`, after every sequence of events, the
latch of the configured motor pin is high exactly in the two moving states. -/
theorem run_setup_motor (bits : Nat) (description : String)
    (directionPin motorPin openedPin closedPin : Int) (moveTimeout : Nat) (b : Board)
    (evs : List Event) :
    (run bits evs (Window.setup (Window.new description directionPin motorPin openedPin
        closedPin moveTimeout) b)).2.output motorPin = Level.HIGH ↔
      ((run bits evs (Window.setup (Window.new description directionPin motorPin openedPin
          closedPin moveTimeout) b)).1._state = OPENING_STATE ∨
        (run bits evs (Window.setup (Window.new description directionPin motorPin openedPin
          closedPin moveTimeout) b)).1._state = CLOSING_STATE) := by
  have hpin := (run_config bits evs (Window.setup (Window.new description directionPin
    motorPin openedPin closedPin moveTimeout) b)).1
  have hinv := run_motor bits evs _ (setup_new_motor description directionPin motorPin
    openedPin closedPin moveTimeout b)
  rw [hpin] at hinv
  have hpin0 : (Window.setup (Window.new description directionPin motorPin openedPin
    closedPin moveTimeout) b).1._motorPin = motorPin := rfl
  rw [hpin0] at hinv
  exact hinv

/-! ## The invariants -/

/-- C1, as the code has it: from the constructed window, after every finite sequence of
`open()`, `close()`, `stop()` and `autostop()` calls under any sensor readings and any
clock values, the deadline is 0 whenever the state is neither opening nor closing; and
if no `open()` or `close()` of the sequence is called at a clock value `now` with
`(now + moveTimeout) % 2 ^ bits = 0`, the deadline is non-zero if and only if the state
is opening or closing. -/
theorem C1_deadline_invariant (bits : Nat) (description : String)
    (directionPin motorPin openedPin closedPin : Int) (moveTimeout : Nat) (b : Board)
    (evs : List Event) :
    ((run bits evs (Window.new description directionPin motorPin openedPin closedPin
          moveTimeout, b)).1._state ≠ OPENING_STATE ∧
      (run bits evs (Window.new description directionPin motorPin openedPin closedPin
          moveTimeout, b)).1._state ≠ CLOSING_STATE →
      (run bits evs (Window.new description directionPin motorPin openedPin closedPin
          moveTimeout, b)).1._moveDeadline = 0) ∧
    ((∀ now, Event.call Command.open now ∈ evs ∨ Event.call Command.close now ∈ evs →
        (now + moveTimeout) % 2 ^ bits ≠ 0) →
      ((run bits evs (Window.new description directionPin motorPin openedPin closedPin
          moveTimeout, b)).1._moveDeadline ≠ 0 ↔
        ((run bits evs (Window.new description directionPin motorPin openedPin closedPin
            moveTimeout, b)).1._state = OPENING_STATE ∨
          (run bits evs (Window.new description directionPin motorPin openedPin closedPin
            moveTimeout, b)).1._state = CLOSING_STATE))) := by
  constructor
  · apply run_cleared
    intro _
    rfl
  · intro hc
    apply run_deadline bits evs _ hc
    simp [Window.new]

/-- C1 at a concrete history: timeout 5000, `open()` at 0, the opened switch closes,
`autostop()` at 3000, `close()` at 4000. -/
theorem C1_deadline_invariant_witness :
    (run 32 [Event.call Command.open 0, Event.sense 4 Level.LOW,
        Event.call Command.autostop 3000, Event.call Command.close 4000]
      (scenarioWindow, Board.powerOn)).1._moveDeadline ≠ 0 ↔
    ((run 32 [Event.call Command.open 0, Event.sense 4 Level.LOW,
        Event.call Command.autostop 3000, Event.call Command.close 4000]
      (scenarioWindow, Board.powerOn)).1._state = OPENING_STATE ∨
     (run 32 [Event.call Command.open 0, Event.sense 4 Level.LOW,
        Event.call Command.autostop 3000, Event.call Command.close 4000]
      (scenarioWindow, Board.powerOn)).1._state = CLOSING_STATE) :=
  (C1_deadline_invariant 32 "scenario" 2 3 4 5 5000 Board.powerOn
    [Event.call Command.open 0, Event.sense 4 Level.LOW,
      Event.call Command.autostop 3000, Event.call Command.close 4000]).2
    (by
      intro now h
      simp only [List.mem_cons, List.mem_singleton, Event.call.injEq, List.mem_nil_iff,
        reduceCtorEq, false_and, and_false, or_false, false_or, true_and] at h
      rcases h with h | h
      · subst h
        decide
      · subst h
        decide)

/-- C1 as stated fails: with a 32-bit clock and timeout 5000 (positive), `open()` called
on the constructed window at clock value `2 ^ 32 - 5000` with the opened switch not
triggered leaves the state opening and the deadline 0, since the sum wraps to 0. -/
theorem C1_counterexample :
    (run 32 [Event.call Command.open 4294962296]
      (Window.new "scenario" 2 3 4 5 5000, Board.powerOn)).1._state = OPENING_STATE ∧
    (run 32 [Event.call Command.open 4294962296]
      (Window.new "scenario" 2 3 4 5 5000, Board.powerOn)).1._moveDeadline = 0 ∧
    ¬ ((run 32 [Event.call Command.open 4294962296]
        (Window.new "scenario" 2 3 4 5 5000, Board.powerOn)).1._moveDeadline ≠ 0 ↔
      ((run 32 [Event.call Command.open 4294962296]
          (Window.new "scenario" 2 3 4 5 5000, Board.powerOn)).1._state = OPENING_STATE ∨
        (run 32 [Event.call Command.open 4294962296]
          (Window.new "scenario" 2 3 4 5 5000, Board.powerOn)).1._state
            = CLOSING_STATE)) := by
  decide

/-- C2: from the constructed window after `setup()`, after every finite sequence of
`open()`, `close()`, `stop()` and `autostop()` calls under any sensor readings and clock
values, the motor output is `HIGH` if and only if the state is opening or closing, and
it is `LOW` in the idle and timed-out states. -/
theorem C2_motor_invariant (bits : Nat) (description : String)
    (directionPin motorPin openedPin closedPin : Int) (moveTimeout : Nat) (b : Board)
    (evs : List Event) :
    ((run bits evs (Window.setup (Window.new description directionPin motorPin openedPin
          closedPin moveTimeout) b)).2.output motorPin = Level.HIGH ↔
      ((run bits evs (Window.setup (Window.new description directionPin motorPin openedPin
          closedPin moveTimeout) b)).1._state = OPENING_STATE ∨
        (run bits evs (Window.setup (Window.new description directionPin motorPin openedPin
          closedPin moveTimeout) b)).1._state = CLOSING_STATE)) ∧
    ((run bits evs (Window.setup (Window.new description directionPin motorPin openedPin
          closedPin moveTimeout) b)).1._state = IDLE_STATE ∨
      (run bits evs (Window.setup (Window.new description directionPin motorPin openedPin
          closedPin moveTimeout) b)).1._state = TIMEOUT_STATE →
      (run bits evs (Window.setup (Window.new description directionPin motorPin openedPin
          closedPin moveTimeout) b)).2.output motorPin = Level.LOW) := by
  have hinv := run_setup_motor bits description directionPin motorPin openedPin closedPin
    moveTimeout b evs
  refine ⟨hinv, ?_⟩
  intro hst
  cases hlev : (run bits evs (Window.setup (Window.new description directionPin motorPin
    openedPin closedPin moveTimeout) b)).2.output motorPin with
  | LOW => rfl
  | HIGH =>
    have hmov := hinv.mp hlev
    rcases hst with hst | hst <;> rcases hmov with hmov | hmov <;>
      rw [hst] at hmov <;> exact absurd hmov (by decide)

/-! ## The commands -/

/-- C3: in every state other than opening in which the opened sensor is not triggered,
`open()` called at clock value `now` yields the opening state, direction output `LOW`
(the direction and motor lines being two different pins, as in the data model), motor
output `HIGH` and deadline `now + moveTimeout` in `unsigned long` arithmetic, which is
the plain sum when it fits in `bits` bits. -/
theorem C3_open_effect (bits now : Nat) (self : Window) (b : Board)
    (hstate : self._state ≠ OPENING_STATE) (hsensor : self.isOpen b = false) :
    (Window.open bits now self b).1._state = OPENING_STATE ∧
    (self._directionPin ≠ self._motorPin →
      (Window.open bits now self b).2.output self._directionPin = Level.LOW) ∧
    (Window.open bits now self b).2.output self._motorPin = Level.HIGH ∧
    (Window.open bits now self b).1._moveDeadline = (now + self._moveTimeout) % 2 ^ bits ∧
    (now + self._moveTimeout < 2 ^ bits →
      (Window.open bits now self b).1._moveDeadline = now + self._moveTimeout) := by
  have hcond : (OPENING_STATE != self._state && !self.isOpen b) = true := by
    simp [hsensor, Ne.symm hstate]
  simp only [Window.open, hcond, if_true]
  refine ⟨trivial, ?_, ?_, rfl, ?_⟩
  · intro hpins
    simp [digitalWrite, Serial.println, hpins]
  · simp [digitalWrite, Serial.println]
  · intro hfit
    unfold ulongAdd
    exact Nat.mod_eq_of_lt hfit

/-- C3 on the scenario of the specification: timeout 5000, `open()` at clock value 0
from the idle state: state opening, direction `LOW`, motor `HIGH`, deadline 5000. -/
theorem C3_open_effect_witness :
    (Window.open 32 0 scenarioWindow Board.powerOn).1._state = OPENING_STATE ∧
    (Window.open 32 0 scenarioWindow Board.powerOn).2.output 2 = Level.LOW ∧
    (Window.open 32 0 scenarioWindow Board.powerOn).2.output 3 = Level.HIGH ∧
    (Window.open 32 0 scenarioWindow Board.powerOn).1._moveDeadline = 5000 :=
  have h := C3_open_effect 32 0 scenarioWindow Board.powerOn (by decide) (by decide)
  ⟨h.1, h.2.1 (by decide), h.2.2.1, h.2.2.2.2 (by decide)⟩

/-- C4: in every state other than closing in which the closed sensor is not triggered,
`close()` called at clock value `now` yields the closing state, direction output `HIGH`,
motor output `HIGH` and deadline `now + moveTimeout` in `unsigned long` arithmetic, which
is the plain sum when it fits in `bits` bits. -/
theorem C4_close_effect (bits now : Nat) (self : Window) (b : Board)
    (hstate : self._state ≠ CLOSING_STATE) (hsensor : self.isClosed b = false) :
    (Window.close bits now self b).1._state = CLOSING_STATE ∧
    (Window.close bits now self b).2.output self._directionPin = Level.HIGH ∧
    (Window.close bits now self b).2.output self._motorPin = Level.HIGH ∧
    (Window.close bits now self b).1._moveDeadline = (now + self._moveTimeout) % 2 ^ bits ∧
    (now + self._moveTimeout < 2 ^ bits →
      (Window.close bits now self b).1._moveDeadline = now + self._moveTimeout) := by
  have hcond : (CLOSING_STATE != self._state && !self.isClosed b) = true := by
    simp [hsensor, Ne.symm hstate]
  simp only [Window.close, hcond, if_true]
  refine ⟨trivial, ?_, ?_, rfl, ?_⟩
  · by_cases hp : self._directionPin = self._motorPin <;>
      simp [digitalWrite, Serial.println, hp]
  · simp [digitalWrite, Serial.println]
  · intro hfit
    unfold ulongAdd
    exact Nat.mod_eq_of_lt hfit

/-- C4 on the scenario of the specification: timeout 5000, `close()` at clock value 0
from the idle state: state closing, direction `HIGH`, motor `HIGH`, deadline 5000. -/
theorem C4_close_effect_witness :
    (Window.close 32 0 scenarioWindow Board.powerOn).1._state = CLOSING_STATE ∧
    (Window.close 32 0 scenarioWindow Board.powerOn).2.output 2 = Level.HIGH ∧
    (Window.close 32 0 scenarioWindow Board.powerOn).2.output 3 = Level.HIGH ∧
    (Window.close 32 0 scenarioWindow Board.powerOn).1._moveDeadline = 5000 :=
  have h := C4_close_effect 32 0 scenarioWindow Board.powerOn (by decide) (by decide)
  ⟨h.1, h.2.1, h.2.2.1, h.2.2.2.2 (by decide)⟩

/-- C5: in every state and at every clock value, if the opened sensor is triggered or the
state is opening, `open()` changes nothing: the window (state and deadline included) and
the board (direction and motor outputs included) are returned as they were. -/
theorem C5_open_noop (bits now : Nat) (self : Window) (b : Board)
    (h : self.isOpen b = true ∨ self._state = OPENING_STATE) :
    Window.open bits now self b = (self, b) ∧
    (Window.open bits now self b).1._state = self._state ∧
    (Window.open bits now self b).1._moveDeadline = self._moveDeadline ∧
    (Window.open bits now self b).2.output self._directionPin
      = b.output self._directionPin ∧
    (Window.open bits now self b).2.output self._motorPin = b.output self._motorPin := by
  have hcond : (OPENING_STATE != self._state && !self.isOpen b) = false := by
    rcases h with h | h
    · simp [h]
    · simp [h]
  have heq : Window.open bits now self b = (self, b) := by
    simp only [Window.open, hcond]
    rfl
  exact ⟨heq, by rw [heq], by rw [heq], by rw [heq], by rw [heq]⟩

/-- C5 at a concrete input: a closing window (deadline 5000) whose opened switch is
triggered; `open()` at clock value 100 leaves it closing with deadline 5000. -/
theorem C5_open_noop_witness :
    (Window.open 32 100
      (run 32 [Event.call Command.close 0, Event.sense 4 Level.LOW]
        (scenarioWindow, Board.powerOn)).1
      (run 32 [Event.call Command.close 0, Event.sense 4 Level.LOW]
        (scenarioWindow, Board.powerOn)).2).1._state = CLOSING_STATE ∧
    (Window.open 32 100
      (run 32 [Event.call Command.close 0, Event.sense 4 Level.LOW]
        (scenarioWindow, Board.powerOn)).1
      (run 32 [Event.call Command.close 0, Event.sense 4 Level.LOW]
        (scenarioWindow, Board.powerOn)).2).1._moveDeadline = 5000 :=
  have h := C5_open_noop 32 100
    (run 32 [Event.call Command.close 0, Event.sense 4 Level.LOW]
      (scenarioWindow, Board.powerOn)).1
    (run 32 [Event.call Command.close 0, Event.sense 4 Level.LOW]
      (scenarioWindow, Board.powerOn)).2 (Or.inl (by decide))
  ⟨h.2.1.trans (by decide), h.2.2.1.trans (by decide)⟩

/-- C6: in every state and at every clock value, if the state is closing or the closed
sensor is triggered, `close()` changes nothing: the window (state and deadline included)
and the board (direction and motor outputs included) are returned as they were. -/
theorem C6_close_noop (bits now : Nat) (self : Window) (b : Board)
    (h : self._state = CLOSING_STATE ∨ self.isClosed b = true) :
    Window.close bits now self b = (self, b) ∧
    (Window.close bits now self b).1._state = self._state ∧
    (Window.close bits now self b).1._moveDeadline = self._moveDeadline ∧
    (Window.close bits now self b).2.output self._directionPin
      = b.output self._directionPin ∧
    (Window.close bits now self b).2.output self._motorPin = b.output self._motorPin := by
  have hcond : (CLOSING_STATE != self._state && !self.isClosed b) = false := by
    rcases h with h | h
    · simp [h]
    · simp [h]
  have heq : Window.close bits now self b = (self, b) := by
    simp only [Window.close, hcond]
    rfl
  exact ⟨heq, by rw [heq], by rw [heq], by rw [heq], by rw [heq]⟩

/-- C6 at a concrete input: a window closing since clock value 0 (deadline 5000);
`close()` again at clock value 100 leaves the deadline 5000 and both outputs `HIGH`. -/
theorem C6_close_noop_witness :
    (Window.close 32 100
      (Window.close 32 0 scenarioWindow Board.powerOn).1
      (Window.close 32 0 scenarioWindow Board.powerOn).2).1._moveDeadline = 5000 ∧
    (Window.close 32 100
      (Window.close 32 0 scenarioWindow Board.powerOn).1
      (Window.close 32 0 scenarioWindow Board.powerOn).2).2.output 2 = Level.HIGH ∧
    (Window.close 32 100
      (Window.close 32 0 scenarioWindow Board.powerOn).1
      (Window.close 32 0 scenarioWindow Board.powerOn).2).2.output 3 = Level.HIGH :=
  have h := C6_close_noop 32 100
    (Window.close 32 0 scenarioWindow Board.powerOn).1
    (Window.close 32 0 scenarioWindow Board.powerOn).2 (Or.inl (by decide))
  ⟨h.2.2.1.trans (by decide), h.2.2.2.1.trans (by decide), h.2.2.2.2.trans (by decide)⟩

/-- C7: from every state other than idle, under any sensor readings, `stop()` yields the
idle state with motor output `LOW`, direction output `LOW` and deadline 0; from the idle
state `stop()` changes nothing; and in every state reached from the constructed window
after `setup()` by a finite sequence of calls and sensor changes, the motor output is
`LOW` right after `stop()`. -/
theorem C7_stop (bits : Nat) (self : Window) (b : Board) (description : String)
    (directionPin motorPin openedPin closedPin : Int) (moveTimeout : Nat) (b0 : Board)
    (evs : List Event) :
    (self._state ≠ IDLE_STATE →
      (Window.stop self b).1._state = IDLE_STATE ∧
      (Window.stop self b).2.output self._motorPin = Level.LOW ∧
      (Window.stop self b).2.output self._directionPin = Level.LOW ∧
      (Window.stop self b).1._moveDeadline = 0) ∧
    (self._state = IDLE_STATE → Window.stop self b = (self, b)) ∧
    (Window.stop
      (run bits evs (Window.setup (Window.new description directionPin motorPin openedPin
        closedPin moveTimeout) b0)).1
      (run bits evs (Window.setup (Window.new description directionPin motorPin openedPin
        closedPin moveTimeout) b0)).2).2.output motorPin = Level.LOW := by
  refine ⟨?_, ?_, ?_⟩
  · intro hstate
    have hcond : (IDLE_STATE != self._state) = true := by
      simp [Ne.symm hstate]
    simp only [Window.stop, hcond, if_true]
    refine ⟨trivial, ?_, ?_, trivial⟩
    · simp [digitalWrite, Serial.println]
    · by_cases hp : self._directionPin = self._motorPin <;>
        simp [digitalWrite, Serial.println, hp]
  · intro hstate
    have hcond : (IDLE_STATE != self._state) = false := by
      simp [hstate]
    simp only [Window.stop, hcond]
    rfl
  · have hinv := run_setup_motor bits description directionPin motorPin openedPin
      closedPin moveTimeout b0 evs
    have hpin : (run bits evs (Window.setup (Window.new description directionPin motorPin
        openedPin closedPin moveTimeout) b0)).1._motorPin = motorPin :=
      (run_config bits evs _).1
    generalize run bits evs (Window.setup (Window.new description directionPin motorPin
      openedPin closedPin moveTimeout) b0) = s at hinv hpin
    by_cases hstate : s.1._state = IDLE_STATE
    · have hcond : (IDLE_STATE != s.1._state) = false := by
        simp [hstate]
      simp only [Window.stop, hcond]
      cases hlev : s.2.output motorPin with
      | LOW => simpa using hlev
      | HIGH =>
        have hmov := hinv.mp hlev
        rw [hstate] at hmov
        rcases hmov with hmov | hmov <;> exact absurd hmov (by decide)
    · have hcond : (IDLE_STATE != s.1._state) = true := by
        simp [Ne.symm hstate]
      simp only [Window.stop, hcond, if_true]
      simp [digitalWrite, Serial.println, hpin]

/-- C7 at concrete inputs: `stop()` on a window opening since clock value 0 (timeout
5000) gives the idle state, motor `LOW`, direction `LOW`, deadline 0. -/
theorem C7_stop_witness :
    (Window.stop (Window.open 32 0 scenarioWindow Board.powerOn).1
      (Window.open 32 0 scenarioWindow Board.powerOn).2).1._state = IDLE_STATE ∧
    (Window.stop (Window.open 32 0 scenarioWindow Board.powerOn).1
      (Window.open 32 0 scenarioWindow Board.powerOn).2).2.output 3 = Level.LOW ∧
    (Window.stop (Window.open 32 0 scenarioWindow Board.powerOn).1
      (Window.open 32 0 scenarioWindow Board.powerOn).2).2.output 2 = Level.LOW ∧
    (Window.stop (Window.open 32 0 scenarioWindow Board.powerOn).1
      (Window.open 32 0 scenarioWindow Board.powerOn).2).1._moveDeadline = 0 ∧
    Window.stop scenarioWindow Board.powerOn = (scenarioWindow, Board.powerOn) :=
  have h := (C7_stop 32 (Window.open 32 0 scenarioWindow Board.powerOn).1
    (Window.open 32 0 scenarioWindow Board.powerOn).2 "scenario" 2 3 4 5 5000
    Board.powerOn []).1 (by decide)
  have h0 := (C7_stop 32 scenarioWindow Board.powerOn "scenario" 2 3 4 5 5000
    Board.powerOn []).2.1 rfl
  ⟨h.1, h.2.1, h.2.2.1, h.2.2.2, h0⟩

/-! ## The periodic check -/

/-- C8: at every clock value, the deadline reached or not, if the state is opening and
the opened sensor is triggered, or the state is closing and the closed sensor is
triggered, `autostop()` yields the idle state (not the timed-out state), motor output
`LOW` and deadline 0. -/
theorem C8_autostop_sensor (now : Nat) (self : Window) (b : Board)
    (h : (self._state = OPENING_STATE ∧ self.isOpen b = true) ∨
      (self._state = CLOSING_STATE ∧ self.isClosed b = true)) :
    (Window.autostop now self b).1._state = IDLE_STATE ∧
    (Window.autostop now self b).1._state ≠ TIMEOUT_STATE ∧
    (Window.autostop now self b).2.output self._motorPin = Level.LOW ∧
    (Window.autostop now self b).1._moveDeadline = 0 := by
  rcases h with ⟨hs, hopen⟩ | ⟨hs, hclosed⟩
  · have hcond : (OPENING_STATE == self._state && self.isOpen b) = true := by
      simp [hs, hopen]
    simp only [Window.autostop, hcond, if_true]
    simp [digitalWrite, Serial.println]
  · have hcond1 : (OPENING_STATE == self._state && self.isOpen b) = false := by
      simp [hs]
    have hcond2 : (CLOSING_STATE == self._state && self.isClosed b) = true := by
      simp [hs, hclosed]
    simp only [Window.autostop, hcond1, hcond2, if_true]
    simp [digitalWrite, Serial.println]

/-- C8 on the scenario of the specification: timeout 5000, `open()` at clock value 0,
the opened sensor becomes triggered, `autostop()` at 3000 gives the idle state, motor
`LOW`, deadline 0. -/
theorem C8_autostop_sensor_witness :
    (Window.autostop 3000
      (run 32 [Event.call Command.open 0, Event.sense 4 Level.LOW]
        (Window.setup scenarioWindow Board.powerOn)).1
      (run 32 [Event.call Command.open 0, Event.sense 4 Level.LOW]
        (Window.setup scenarioWindow Board.powerOn)).2).1._state = IDLE_STATE ∧
    (Window.autostop 3000
      (run 32 [Event.call Command.open 0, Event.sense 4 Level.LOW]
        (Window.setup scenarioWindow Board.powerOn)).1
      (run 32 [Event.call Command.open 0, Event.sense 4 Level.LOW]
        (Window.setup scenarioWindow Board.powerOn)).2).2.output 3 = Level.LOW ∧
    (Window.autostop 3000
      (run 32 [Event.call Command.open 0, Event.sense 4 Level.LOW]
        (Window.setup scenarioWindow Board.powerOn)).1
      (run 32 [Event.call Command.open 0, Event.sense 4 Level.LOW]
        (Window.setup scenarioWindow Board.powerOn)).2).1._moveDeadline = 0 :=
  have h := C8_autostop_sensor 3000
    (run 32 [Event.call Command.open 0, Event.sense 4 Level.LOW]
      (Window.setup scenarioWindow Board.powerOn)).1
    (run 32 [Event.call Command.open 0, Event.sense 4 Level.LOW]
      (Window.setup scenarioWindow Board.powerOn)).2 (Or.inl ⟨by decide, by decide⟩)
  ⟨h.1, h.2.2.1, h.2.2.2⟩

/-- C9: if the state is opening and the opened sensor is not triggered, or the state is
closing and the closed sensor is not triggered, and the clock value is at least the
deadline (equality included), `autostop()` yields the timed-out state, motor output
`LOW` and deadline 0. -/
theorem C9_autostop_timeout (now : Nat) (self : Window) (b : Board)
    (h : (self._state = OPENING_STATE ∧ self.isOpen b = false) ∨
      (self._state = CLOSING_STATE ∧ self.isClosed b = false))
    (hnow : now ≥ self._moveDeadline) :
    (Window.autostop now self b).1._state = TIMEOUT_STATE ∧
    (Window.autostop now self b).2.output self._motorPin = Level.LOW ∧
    (Window.autostop now self b).1._moveDeadline = 0 := by
  have hcond1 : (OPENING_STATE == self._state && self.isOpen b) = false := by
    rcases h with ⟨hs, hopen⟩ | ⟨hs, _⟩
    · simp [hopen]
    · simp [hs]
  have hcond2 : (CLOSING_STATE == self._state && self.isClosed b) = false := by
    rcases h with ⟨hs, _⟩ | ⟨hs, hclosed⟩
    · simp [hs]
    · simp [hclosed]
  have hcond3 : (self.isMoving && decide (now ≥ self._moveDeadline)) = true := by
    rcases h with ⟨hs, _⟩ | ⟨hs, _⟩
    · simp [Window.isMoving, hs, hnow]
    · simp [Window.isMoving, hs, hnow]
  simp only [Window.autostop, hcond1, hcond2, hcond3, if_true]
  simp [digitalWrite, Serial.println]

/-- C9 on the scenario of the specification: timeout 5000, `close()` at clock value 0,
closed sensor not triggered, `autostop()` at exactly 5000 gives the timed-out state,
motor `LOW`, deadline 0. -/
theorem C9_autostop_timeout_witness :
    (Window.autostop 5000
      (run 32 [Event.call Command.close 0] (Window.setup scenarioWindow Board.powerOn)).1
      (run 32 [Event.call Command.close 0] (Window.setup scenarioWindow Board.powerOn)).2
      ).1._state = TIMEOUT_STATE ∧
    (Window.autostop 5000
      (run 32 [Event.call Command.close 0] (Window.setup scenarioWindow Board.powerOn)).1
      (run 32 [Event.call Command.close 0] (Window.setup scenarioWindow Board.powerOn)).2
      ).2.output 3 = Level.LOW ∧
    (Window.autostop 5000
      (run 32 [Event.call Command.close 0] (Window.setup scenarioWindow Board.powerOn)).1
      (run 32 [Event.call Command.close 0] (Window.setup scenarioWindow Board.powerOn)).2
      ).1._moveDeadline = 0 :=
  C9_autostop_timeout 5000
    (run 32 [Event.call Command.close 0] (Window.setup scenarioWindow Board.powerOn)).1
    (run 32 [Event.call Command.close 0] (Window.setup scenarioWindow Board.powerOn)).2
    (Or.inr ⟨by decide, by decide⟩) (by decide)

/-- Outside the two moving states none of the three conditions of `autostop()` holds. -/
theorem autostop_not_moving (now : Nat) (self : Window) (b : Board)
    (h : self._state ≠ OPENING_STATE ∧ self._state ≠ CLOSING_STATE) :
    Window.autostop now self b = (self, b) := by
  have hcond1 : (OPENING_STATE == self._state && self.isOpen b) = false := by
    simp [Ne.symm h.1]
  have hcond2 : (CLOSING_STATE == self._state && self.isClosed b) = false := by
    simp [Ne.symm h.2]
  have hcond3 : (self.isMoving && decide (now ≥ self._moveDeadline)) = false := by
    simp [Window.isMoving, Ne.symm h.1, Ne.symm h.2]
  simp only [Window.autostop, hcond1, hcond2, hcond3]
  rfl

/-- A sequence of `autostop()` calls and sensor changes leaves a window that is not
moving, and the output latches of its board, as they were. -/
theorem run_autostop_not_moving (bits : Nat) (evs : List Event) (s : Window × Board)
    (h : s.1._state ≠ OPENING_STATE ∧ s.1._state ≠ CLOSING_STATE)
    (hevs : ∀ c t, Event.call c t ∈ evs → c = Command.autostop) :
    (run bits evs s).1 = s.1 ∧ (run bits evs s).2.output = s.2.output := by
  induction evs generalizing s with
  | nil => exact ⟨rfl, rfl⟩
  | cons e rest ih =>
    simp only [run, List.foldl_cons]
    have hrest : ∀ c t, Event.call c t ∈ rest → c = Command.autostop :=
      fun c t hmem => hevs c t (List.mem_cons_of_mem _ hmem)
    cases e with
    | call c t =>
      have hc : c = Command.autostop := hevs c t (List.mem_cons_self _ _)
      subst hc
      have hstep : Event.apply bits (Event.call Command.autostop t) s = s := by
        simp only [Event.apply, Window.exec]
        exact autostop_not_moving t s.1 s.2 h
      rw [hstep]
      exact ih s h hrest
    | sense pin val =>
      exact ih (s.1, Board.sense pin val s.2) h hrest

/-- C10: in the idle and timed-out states, under any sensor readings and at any clock
value, `autostop()` changes nothing; hence from the timed-out state every finite
sequence of `autostop()` calls, with any sensor changes in between, leaves the state
timed out (`hasTimedOut()` stays true), the window and its outputs as they were. -/
theorem C10_autostop_not_moving (bits now : Nat) (self : Window) (b : Board)
    (evs : List Event) :
    (self._state = IDLE_STATE ∨ self._state = TIMEOUT_STATE →
      Window.autostop now self b = (self, b)) ∧
    (self._state = TIMEOUT_STATE →
      (∀ c t, Event.call c t ∈ evs → c = Command.autostop) →
      (run bits evs (self, b)).1._state = TIMEOUT_STATE ∧
      (run bits evs (self, b)).1.hasTimedOut = true ∧
      (run bits evs (self, b)).1 = self ∧
      (run bits evs (self, b)).2.output = b.output) := by
  constructor
  · intro hstate
    apply autostop_not_moving
    rcases hstate with hstate | hstate <;> rw [hstate] <;> decide
  · intro hstate hevs
    have hnot : self._state ≠ OPENING_STATE ∧ self._state ≠ CLOSING_STATE := by
      rw [hstate]
      decide
    have hrun := run_autostop_not_moving bits evs (self, b) hnot hevs
    refine ⟨?_, ?_, hrun.1, hrun.2⟩
    · rw [hrun.1]
      exact hstate
    · rw [hrun.1]
      simp [Window.hasTimedOut, hstate]

/-- C10 at a concrete history: a window timed out at clock value 5000 stays timed out
through `autostop()` at 6000, both sensors triggering, and `autostop()` at 7000. -/
theorem C10_autostop_not_moving_witness :
    (run 32 [Event.call Command.autostop 6000, Event.sense 4 Level.LOW,
        Event.sense 5 Level.LOW, Event.call Command.autostop 7000]
      (run 32 [Event.call Command.close 0, Event.call Command.autostop 5000]
        (Window.setup scenarioWindow Board.powerOn))).1._state = TIMEOUT_STATE ∧
    (run 32 [Event.call Command.autostop 6000, Event.sense 4 Level.LOW,
        Event.sense 5 Level.LOW, Event.call Command.autostop 7000]
      (run 32 [Event.call Command.close 0, Event.call Command.autostop 5000]
        (Window.setup scenarioWindow Board.powerOn))).1.hasTimedOut = true :=
  have h := (C10_autostop_not_moving 32 0
    (run 32 [Event.call Command.close 0, Event.call Command.autostop 5000]
      (Window.setup scenarioWindow Board.powerOn)).1
    (run 32 [Event.call Command.close 0, Event.call Command.autostop 5000]
      (Window.setup scenarioWindow Board.powerOn)).2
    [Event.call Command.autostop 6000, Event.sense 4 Level.LOW,
      Event.sense 5 Level.LOW, Event.call Command.autostop 7000]).2 (by decide)
    (by
      intro c t hmem
      simp only [List.mem_cons, List.mem_singleton, Event.call.injEq, List.mem_nil_iff,
        reduceCtorEq, or_false, false_or] at hmem
      rcases hmem with hmem | hmem <;> exact hmem.1)
  ⟨h.1, h.2.1⟩

/-! ## Reaching the timed-out state -/

/-- C11: for each of `open()`, `close()`, `stop()` and `autostop()`, called in a state
other than timed out: if the state after the call is timed out, then the call is
`autostop()`, the state before was opening or closing, and the clock value at the call
was at least the deadline. So `open()`, `close()` and `stop()` never produce the
timed-out state from another state. -/
theorem C11_timeout_only_by_expiry (bits : Nat) (c : Command) (now : Nat) (self : Window)
    (b : Board) (hpre : self._state ≠ TIMEOUT_STATE)
    (hpost : (Window.exec bits c now self b).1._state = TIMEOUT_STATE) :
    c = Command.autostop ∧
    (self._state = OPENING_STATE ∨ self._state = CLOSING_STATE) ∧
    now ≥ self._moveDeadline := by
  cases c
  · simp only [Window.exec, Window.open] at hpost
    split_ifs at hpost
    · simp at hpost
    · exact absurd hpost hpre
  · simp only [Window.exec, Window.close] at hpost
    split_ifs at hpost
    · simp at hpost
    · exact absurd hpost hpre
  · simp only [Window.exec, Window.stop] at hpost
    split_ifs at hpost
    · simp at hpost
    · exact absurd hpost hpre
  · simp only [Window.exec, Window.autostop] at hpost
    split_ifs at hpost with h1 h2 h3
    · simp at hpost
    · simp at hpost
    · simp only [Window.isMoving, Bool.and_eq_true, Bool.or_eq_true, beq_iff_eq,
        decide_eq_true_eq] at h3
      refine ⟨rfl, ?_, h3.2⟩
      rcases h3.1 with h | h
      · exact Or.inl h.symm
      · exact Or.inr h.symm
    · exact absurd hpost hpre

/-- C11 on the scenario of the specification: timeout 5000, `close()` at clock value 0,
`autostop()` at 5000 gives the timed-out state; the state before was closing and the
clock value 5000 is at least the deadline 5000. -/
theorem C11_timeout_only_by_expiry_witness :
    Command.autostop = Command.autostop ∧
    ((Window.close 32 0 scenarioWindow Board.powerOn).1._state = OPENING_STATE ∨
      (Window.close 32 0 scenarioWindow Board.powerOn).1._state = CLOSING_STATE) ∧
    5000 ≥ (Window.close 32 0 scenarioWindow Board.powerOn).1._moveDeadline :=
  C11_timeout_only_by_expiry 32 Command.autostop 5000
    (Window.close 32 0 scenarioWindow Board.powerOn).1
    (Window.close 32 0 scenarioWindow Board.powerOn).2 (by decide) (by decide)

/-- C12 at the failing input: the window of the scenario, timed out at clock value 5000
after `close()` at 0. It is not moving (`isMoving()` is false), yet `stop()` changes its
state from timed out to idle, so that `hasTimedOut()` turns false, and emits a line. -/
theorem C12_stop_from_timed_out :
    (run 32 [Event.call Command.close 0, Event.call Command.autostop 5000]
      (Window.setup scenarioWindow Board.powerOn)).1.isMoving = false ∧
    (run 32 [Event.call Command.close 0, Event.call Command.autostop 5000]
      (Window.setup scenarioWindow Board.powerOn)).1._state = TIMEOUT_STATE ∧
    (Window.stop
      (run 32 [Event.call Command.close 0, Event.call Command.autostop 5000]
        (Window.setup scenarioWindow Board.powerOn)).1
      (run 32 [Event.call Command.close 0, Event.call Command.autostop 5000]
        (Window.setup scenarioWindow Board.powerOn)).2).1._state = IDLE_STATE ∧
    (Window.stop
      (run 32 [Event.call Command.close 0, Event.call Command.autostop 5000]
        (Window.setup scenarioWindow Board.powerOn)).1
      (run 32 [Event.call Command.close 0, Event.call Command.autostop 5000]
        (Window.setup scenarioWindow Board.powerOn)).2).1.hasTimedOut = false ∧
    (Window.stop
      (run 32 [Event.call Command.close 0, Event.call Command.autostop 5000]
        (Window.setup scenarioWindow Board.powerOn)).1
      (run 32 [Event.call Command.close 0, Event.call Command.autostop 5000]
        (Window.setup scenarioWindow Board.powerOn)).2).2.serial.length = 3 ∧
    (run 32 [Event.call Command.close 0, Event.call Command.autostop 5000]
      (Window.setup scenarioWindow Board.powerOn)).2.serial.length = 2 := by
  decide

/-! ## The timeout and the wrap-around of the clock -/

/-- When the sum `t0 + _moveTimeout` fits in `bits` bits, a timeout declared by
`autostop()` at clock value `t` on a moving window whose deadline was computed at `t0`
comes no earlier than `_moveTimeout` after `t0`. -/
theorem timeout_not_premature_without_wrap (bits t0 t : Nat) (self : Window) (b : Board)
    (hpre : self._state ≠ TIMEOUT_STATE)
    (hd : self._moveDeadline = ulongAdd bits t0 self._moveTimeout)
    (hfit : t0 + self._moveTimeout < 2 ^ bits)
    (hpost : (Window.autostop t self b).1._state = TIMEOUT_STATE) :
    t0 ≤ t ∧ t - t0 ≥ self._moveTimeout := by
  have hdl : self._moveDeadline = t0 + self._moveTimeout := by
    rw [hd]
    exact Nat.mod_eq_of_lt hfit
  have hge : t ≥ self._moveDeadline := by
    simp only [Window.autostop] at hpost
    split_ifs at hpost with h1 h2 h3
    · simp at hpost
    · simp at hpost
    · simp only [Bool.and_eq_true, decide_eq_true_eq] at h3
      exact h3.2
    · exact absurd hpost hpre
  omega

/-- When the sum `t0 + _moveTimeout` fits in `bits` bits and the clock has not wrapped
since `t0`, `autostop()` called `_moveTimeout` or more after `t0` on a moving window
whose deadline was computed at `t0` ends the move and switches the motor off. -/
theorem timeout_enforced_without_wrap (bits t0 t : Nat) (self : Window) (b : Board)
    (hmov : self._state = OPENING_STATE ∨ self._state = CLOSING_STATE)
    (hd : self._moveDeadline = ulongAdd bits t0 self._moveTimeout)
    (hfit : t0 + self._moveTimeout < 2 ^ bits)
    (ht : t0 ≤ t) (hel : t - t0 ≥ self._moveTimeout) :
    (Window.autostop t self b).1._state ≠ OPENING_STATE ∧
    (Window.autostop t self b).1._state ≠ CLOSING_STATE ∧
    (Window.autostop t self b).2.output self._motorPin = Level.LOW := by
  have hdl : self._moveDeadline = t0 + self._moveTimeout := by
    rw [hd]
    exact Nat.mod_eq_of_lt hfit
  have hge : t ≥ self._moveDeadline := by omega
  have hcond3 : (self.isMoving && decide (t ≥ self._moveDeadline)) = true := by
    rcases hmov with hs | hs
    · simp [Window.isMoving, hs, hge]
    · simp [Window.isMoving, hs, hge]
  simp only [Window.autostop]
  split_ifs
  · simp [digitalWrite, Serial.println]
  · simp [digitalWrite, Serial.println]
  · simp [digitalWrite, Serial.println]

/-- C13 at the failing input: 32-bit clock, timeout 5000, `open()` at clock value
`2 ^ 32 - 1000` on the idle window (opened sensor not triggered). The deadline wraps to
4000, and `autostop()` one millisecond later, at `2 ^ 32 - 999`, declares the timeout
although the move has lasted 1, not 5000. -/
theorem C13_premature_timeout :
    (run 32 [Event.call Command.open 4294966296]
      (Window.setup scenarioWindow Board.powerOn)).1._state = OPENING_STATE ∧
    (run 32 [Event.call Command.open 4294966296]
      (Window.setup scenarioWindow Board.powerOn)).1._moveDeadline = 4000 ∧
    (run 32 [Event.call Command.open 4294966296, Event.call Command.autostop 4294966297]
      (Window.setup scenarioWindow Board.powerOn)).1._state = TIMEOUT_STATE ∧
    4294966297 ≥ 4294966296 ∧ 4294966297 < 2 ^ 32 ∧
    ¬ (4294966297 - 4294966296 ≥ scenarioWindow._moveTimeout) := by
  decide

/-- C14 at the failing input: 32-bit clock, timeout 5000, `open()` at clock value
`2 ^ 32 - 6000` on the idle window (opened sensor not triggered); the deadline is
`2 ^ 32 - 1000`. `autostop()` called at clock value 0, right after the clock has
wrapped, 6000 after the start of the move, leaves the state opening and the motor
output `HIGH`. -/
theorem C14_missed_timeout :
    (run 32 [Event.call Command.open 4294961296]
      (Window.setup scenarioWindow Board.powerOn)).1._state = OPENING_STATE ∧
    (run 32 [Event.call Command.open 4294961296]
      (Window.setup scenarioWindow Board.powerOn)).1._moveDeadline = 4294966296 ∧
    ((0 : Int) - 4294961296) % 2 ^ 32 = 6000 ∧
    (6000 : Int) ≥ scenarioWindow._moveTimeout ∧
    (run 32 [Event.call Command.open 4294961296, Event.call Command.autostop 0]
      (Window.setup scenarioWindow Board.powerOn)).1._state = OPENING_STATE ∧
    (run 32 [Event.call Command.open 4294961296, Event.call Command.autostop 0]
      (Window.setup scenarioWindow Board.powerOn)).2.output 3 = Level.HIGH := by
  decide

/-! ## Repeated commands and queries -/

/-- C15: each of `open()`, `close()` and `stop()` is idempotent: in every state, with
the sensor readings held fixed and for all clock values `t1` and `t2`, calling the
command at `t1` and again at `t2` gives exactly the window (state, deadline) and the
board (direction and motor outputs, emitted lines) that the single call at `t1` gives. -/
theorem C15_idempotent (bits t1 t2 : Nat) (self : Window) (b : Board) :
    Window.open bits t2 (Window.open bits t1 self b).1 (Window.open bits t1 self b).2
      = Window.open bits t1 self b ∧
    Window.close bits t2 (Window.close bits t1 self b).1 (Window.close bits t1 self b).2
      = Window.close bits t1 self b ∧
    Window.stop (Window.stop self b).1 (Window.stop self b).2 = Window.stop self b ∧
    (Window.open bits t1 self b).2.input = b.input ∧
    (Window.close bits t1 self b).2.input = b.input ∧
    (Window.stop self b).2.input = b.input := by
  refine ⟨?_, ?_, ?_, ?_, ?_, ?_⟩
  · by_cases hg : (OPENING_STATE != self._state && !self.isOpen b) = true
    · have h1 : Window.open bits t1 self b =
          ({ self with
              _state := OPENING_STATE
              _moveDeadline := ulongAdd bits t1 self._moveTimeout },
            digitalWrite self._motorPin Level.HIGH
              (digitalWrite self._directionPin Level.LOW
                (Serial.println ("Opening window " ++ self.description ++ ".") b))) := by
        simp only [Window.open, hg, if_true]
      rw [h1]
      simp [Window.open]
    · have h1 : ∀ t, Window.open bits t self b = (self, b) := by
        intro t
        simp only [Window.open, hg]
        rfl
      rw [h1 t1]
      exact h1 t2
  · by_cases hg : (CLOSING_STATE != self._state && !self.isClosed b) = true
    · have h1 : Window.close bits t1 self b =
          ({ self with
              _state := CLOSING_STATE
              _moveDeadline := ulongAdd bits t1 self._moveTimeout },
            digitalWrite self._motorPin Level.HIGH
              (digitalWrite self._directionPin Level.HIGH
                (Serial.println ("Closing window " ++ self.description ++ ".") b))) := by
        simp only [Window.close, hg, if_true]
      rw [h1]
      simp [Window.close]
    · have h1 : ∀ t, Window.close bits t self b = (self, b) := by
        intro t
        simp only [Window.close, hg]
        rfl
      rw [h1 t1]
      exact h1 t2
  · by_cases hg : (IDLE_STATE != self._state) = true
    · have h1 : Window.stop self b =
          ({ self with _state := IDLE_STATE, _moveDeadline := 0 },
            digitalWrite self._motorPin Level.LOW
              (digitalWrite self._directionPin Level.LOW
                (Serial.println ("Stopping window " ++ self.description ++ ".") b))) := by
        simp only [Window.stop, hg, if_true]
      rw [h1]
      simp [Window.stop]
    · have h1 : Window.stop self b = (self, b) := by
        simp only [Window.stop, hg]
        rfl
      rw [h1]
      exact h1
  · simp only [Window.open]
    split_ifs <;> rfl
  · simp only [Window.close]
    split_ifs <;> rfl
  · simp only [Window.stop]
    split_ifs <;> rfl

/-- C16: in every state and under every sensor reading, `isMoving()` is true exactly in
the opening and closing states, `hasTimedOut()` exactly in the timed-out state (never
both), `isOpen()` exactly when the opened sensor line reads `LOW` and `isClosed()`
exactly when the closed sensor line reads `LOW`, whatever the state and the deadline;
and a query leaves the window (state, deadline) and the board (outputs) as they were. -/
theorem C16_queries (q : Query) (self : Window) (b : Board) (st : Int) (d : Nat) :
    (self.isMoving = true ↔
      (self._state = OPENING_STATE ∨ self._state = CLOSING_STATE)) ∧
    (self.hasTimedOut = true ↔ self._state = TIMEOUT_STATE) ∧
    ¬ (self.isMoving = true ∧ self.hasTimedOut = true) ∧
    (self.isOpen b = true ↔ digitalRead self._openedPin b = Level.LOW) ∧
    (self.isClosed b = true ↔ digitalRead self._closedPin b = Level.LOW) ∧
    Window.isOpen { self with _state := st, _moveDeadline := d } b = self.isOpen b ∧
    Window.isClosed { self with _state := st, _moveDeadline := d } b = self.isClosed b ∧
    (Window.query q self b).2 = (self, b) ∧
    (Window.query Query.isOpen self b).1 = self.isOpen b ∧
    (Window.query Query.isClosed self b).1 = self.isClosed b ∧
    (Window.query Query.isMoving self b).1 = self.isMoving ∧
    (Window.query Query.hasTimedOut self b).1 = self.hasTimedOut := by
  refine ⟨?_, ?_, ?_, ?_, ?_, rfl, rfl, ?_, rfl, rfl, rfl, rfl⟩
  · simp only [Window.isMoving, Bool.or_eq_true, beq_iff_eq]
    constructor
    · rintro (h | h)
      · exact Or.inl h.symm
      · exact Or.inr h.symm
    · rintro (h | h)
      · exact Or.inl h.symm
      · exact Or.inr h.symm
  · simp only [Window.hasTimedOut, beq_iff_eq]
    exact eq_comm
  · simp only [Window.isMoving, Window.hasTimedOut, Bool.or_eq_true, beq_iff_eq]
    rintro ⟨h | h, ht⟩
    · rw [← h] at ht
      exact absurd ht (by decide)
    · rw [← h] at ht
      exact absurd ht (by decide)
  · simp only [Window.isOpen, beq_iff_eq]
    exact eq_comm
  · simp only [Window.isClosed, beq_iff_eq]
    exact eq_comm
  · cases q <;> rfl

/-- C18: if the state is opening and the opened sensor is not triggered, or the state
is closing and the closed sensor is not triggered, and the clock value is below the
deadline, `autostop()` changes nothing, whatever the other sensor reads: the window
(state, deadline) and the board (direction and motor outputs) are as they were. -/
theorem C18_autostop_in_progress (now : Nat) (self : Window) (b : Board)
    (h : (self._state = OPENING_STATE ∧ self.isOpen b = false) ∨
      (self._state = CLOSING_STATE ∧ self.isClosed b = false))
    (hnow : now < self._moveDeadline) :
    Window.autostop now self b = (self, b) ∧
    (Window.autostop now self b).1._state = self._state ∧
    (Window.autostop now self b).1._moveDeadline = self._moveDeadline ∧
    (Window.autostop now self b).2.output self._directionPin
      = b.output self._directionPin ∧
    (Window.autostop now self b).2.output self._motorPin = b.output self._motorPin := by
  have hcond1 : (OPENING_STATE == self._state && self.isOpen b) = false := by
    rcases h with ⟨_, hopen⟩ | ⟨hs, _⟩
    · simp [hopen]
    · simp [hs]
  have hcond2 : (CLOSING_STATE == self._state && self.isClosed b) = false := by
    rcases h with ⟨hs, _⟩ | ⟨_, hclosed⟩
    · simp [hs]
    · simp [hclosed]
  have hcond3 : (self.isMoving && decide (now ≥ self._moveDeadline)) = false := by
    simp [hnow]
  have heq : Window.autostop now self b = (self, b) := by
    simp only [Window.autostop, hcond1, hcond2, hcond3]
    rfl
  exact ⟨heq, by rw [heq], by rw [heq], by rw [heq], by rw [heq]⟩

/-- C18 at a concrete input: the window of the scenario opening since clock value 0
(deadline 5000) with the closed sensor triggered and the opened sensor not;
`autostop()` at 3000 leaves it opening with the motor output `HIGH`. -/
theorem C18_autostop_in_progress_witness :
    (Window.autostop 3000
      (run 32 [Event.call Command.open 0, Event.sense 5 Level.LOW]
        (Window.setup scenarioWindow Board.powerOn)).1
      (run 32 [Event.call Command.open 0, Event.sense 5 Level.LOW]
        (Window.setup scenarioWindow Board.powerOn)).2).1._state = OPENING_STATE ∧
    (Window.autostop 3000
      (run 32 [Event.call Command.open 0, Event.sense 5 Level.LOW]
        (Window.setup scenarioWindow Board.powerOn)).1
      (run 32 [Event.call Command.open 0, Event.sense 5 Level.LOW]
        (Window.setup scenarioWindow Board.powerOn)).2).2.output 3 = Level.HIGH :=
  have h := C18_autostop_in_progress 3000
    (run 32 [Event.call Command.open 0, Event.sense 5 Level.LOW]
      (Window.setup scenarioWindow Board.powerOn)).1
    (run 32 [Event.call Command.open 0, Event.sense 5 Level.LOW]
      (Window.setup scenarioWindow Board.powerOn)).2
    (Or.inl ⟨by decide, by decide⟩) (by decide)
  ⟨h.2.1.trans (by decide), h.2.2.2.2.trans (by decide)⟩

/-- C20: in every state `setup()` writes the direction and motor outputs `LOW` and
leaves the window, so its state and its deadline, as it was; hence after `setup()`
called in the opening or closing state `isMoving()` is still true and the deadline is
what it was (non-zero if it was) while the motor output is `LOW`. -/
theorem C20_setup_outputs_only (self : Window) (b : Board) :
    (Window.setup self b).1 = self ∧
    (Window.setup self b).1._state = self._state ∧
    (Window.setup self b).1._moveDeadline = self._moveDeadline ∧
    (Window.setup self b).2.output self._directionPin = Level.LOW ∧
    (Window.setup self b).2.output self._motorPin = Level.LOW ∧
    (self._state = OPENING_STATE ∨ self._state = CLOSING_STATE →
      (Window.setup self b).1.isMoving = true ∧
      (self._moveDeadline ≠ 0 → (Window.setup self b).1._moveDeadline ≠ 0) ∧
      (Window.setup self b).2.output self._motorPin = Level.LOW) := by
  have hmotor : (Window.setup self b).2.output self._motorPin = Level.LOW := by
    simp [Window.setup, digitalWrite, pinMode]
  refine ⟨rfl, rfl, rfl, ?_, hmotor, ?_⟩
  · by_cases hp : self._directionPin = self._motorPin <;>
      simp [Window.setup, digitalWrite, pinMode, hp]
  · intro hmov
    refine ⟨?_, fun hd => hd, hmotor⟩
    rcases hmov with hs | hs
    · simp [Window.setup, Window.isMoving, hs]
    · simp [Window.setup, Window.isMoving, hs]

/-- C20 at a concrete input: the window of the scenario opening since clock value 0;
after `setup()` it still reports moving with deadline 5000, and the motor output is
`LOW`. -/
theorem C20_setup_outputs_only_witness :
    (Window.setup (Window.open 32 0 scenarioWindow Board.powerOn).1
      (Window.open 32 0 scenarioWindow Board.powerOn).2).1.isMoving = true ∧
    (Window.setup (Window.open 32 0 scenarioWindow Board.powerOn).1
      (Window.open 32 0 scenarioWindow Board.powerOn).2).1._moveDeadline ≠ 0 ∧
    (Window.setup (Window.open 32 0 scenarioWindow Board.powerOn).1
      (Window.open 32 0 scenarioWindow Board.powerOn).2).2.output
        (Window.open 32 0 scenarioWindow Board.powerOn).1._motorPin = Level.LOW ∧
    (Window.open 32 0 scenarioWindow Board.powerOn).2.output 3 = Level.HIGH :=
  have h := (C20_setup_outputs_only (Window.open 32 0 scenarioWindow Board.powerOn).1
    (Window.open 32 0 scenarioWindow Board.powerOn).2).2.2.2.2.2 (Or.inl (by decide))
  ⟨h.1, h.2.1 (by decide), h.2.2, by decide⟩

/-! ## The direction output and the frame -/

/-- Every call keeps the relation between the state and the direction latch. -/
theorem exec_direction (bits : Nat) (c : Command) (now : Nat) (self : Window) (b : Board)
    (h : DirectionInv (self, b)) : DirectionInv (Window.exec bits c now self b) := by
  unfold DirectionInv at h ⊢
  cases c
  · simp only [Window.exec, Window.open]
    split_ifs
    · refine ⟨?_, ?_, ?_⟩
      · intro hp _
        simp [digitalWrite, Serial.println, hp]
      · intro hs
        simp at hs
      · intro hs
        simp at hs
    · exact h
  · simp only [Window.exec, Window.close]
    split_ifs
    · refine ⟨?_, ?_, ?_⟩
      · intro _ hs
        simp at hs
      · intro _
        by_cases hp : self._directionPin = self._motorPin <;>
          simp [digitalWrite, Serial.println, hp]
      · intro hs
        simp at hs
    · exact h
  · simp only [Window.exec, Window.stop]
    split_ifs
    · refine ⟨?_, ?_, ?_⟩
      · intro _ hs
        simp at hs
      · intro hs
        simp at hs
      · intro _
        by_cases hp : self._directionPin = self._motorPin <;>
          simp [digitalWrite, Serial.println, hp]
    · exact h
  · simp only [Window.exec, Window.autostop]
    split_ifs
    · refine ⟨?_, ?_, ?_⟩
      · intro _ hs
        simp at hs
      · intro hs
        simp at hs
      · intro _
        by_cases hp : self._directionPin = self._motorPin <;>
          simp [digitalWrite, Serial.println, hp]
    · refine ⟨?_, ?_, ?_⟩
      · intro _ hs
        simp at hs
      · intro hs
        simp at hs
      · intro _
        by_cases hp : self._directionPin = self._motorPin <;>
          simp [digitalWrite, Serial.println, hp]
    · refine ⟨?_, ?_, ?_⟩
      · intro _ hs
        simp at hs
      · intro hs
        simp at hs
      · intro _
        by_cases hp : self._directionPin = self._motorPin <;>
          simp [digitalWrite, Serial.println, hp]
    · exact h

/-- Every sequence of events keeps the relation between the state and the direction
latch. -/
theorem run_direction (bits : Nat) (evs : List Event) (s : Window × Board)
    (h : DirectionInv s) : DirectionInv (run bits evs s) := by
  induction evs generalizing s with
  | nil => exact h
  | cons e rest ih =>
    simp only [run, List.foldl_cons]
    apply ih
    cases e with
    | call c now => exact exec_direction bits c now s.1 s.2 h
    | sense pin val => exact h

/-- After `setup()` on a freshly constructed window the relation between the state and
the direction latch holds: the state is idle and the latch is low. -/
theorem setup_new_direction (description : String)
    (directionPin motorPin openedPin closedPin : Int) (moveTimeout : Nat) (b : Board) :
    DirectionInv (Window.setup (Window.new description directionPin motorPin openedPin
      closedPin moveTimeout) b) := by
  unfold DirectionInv
  refine ⟨?_, ?_, ?_⟩
  · intro _ hs
    simp [Window.setup, Window.new] at hs
  · intro hs
    simp [Window.setup, Window.new] at hs
  · intro _
    by_cases hp : directionPin = motorPin <;>
      simp [Window.setup, Window.new, digitalWrite, pinMode, hp]

/-- C17: from the constructed window after `setup()`, after every finite sequence of
`open()`, `close()`, `stop()` and `autostop()` calls under any sensor readings and clock
values, the direction output is `LOW` in the opening state (the direction and motor
lines being two different pins, as in the data model), `HIGH` in the closing state, and
`LOW` in the idle and timed-out states. -/
theorem C17_direction_invariant (bits : Nat) (description : String)
    (directionPin motorPin openedPin closedPin : Int) (moveTimeout : Nat) (b : Board)
    (evs : List Event) :
    (directionPin ≠ motorPin →
      (run bits evs (Window.setup (Window.new description directionPin motorPin openedPin
        closedPin moveTimeout) b)).1._state = OPENING_STATE →
      (run bits evs (Window.setup (Window.new description directionPin motorPin openedPin
        closedPin moveTimeout) b)).2.output directionPin = Level.LOW) ∧
    ((run bits evs (Window.setup (Window.new description directionPin motorPin openedPin
        closedPin moveTimeout) b)).1._state = CLOSING_STATE →
      (run bits evs (Window.setup (Window.new description directionPin motorPin openedPin
        closedPin moveTimeout) b)).2.output directionPin = Level.HIGH) ∧
    ((run bits evs (Window.setup (Window.new description directionPin motorPin openedPin
          closedPin moveTimeout) b)).1._state = IDLE_STATE ∨
      (run bits evs (Window.setup (Window.new description directionPin motorPin openedPin
          closedPin moveTimeout) b)).1._state = TIMEOUT_STATE →
      (run bits evs (Window.setup (Window.new description directionPin motorPin openedPin
        closedPin moveTimeout) b)).2.output directionPin = Level.LOW) := by
  have hinv := run_direction bits evs _ (setup_new_direction description directionPin
    motorPin openedPin closedPin moveTimeout b)
  have hcfg := run_config bits evs (Window.setup (Window.new description directionPin
    motorPin openedPin closedPin moveTimeout) b)
  have hdir : (run bits evs (Window.setup (Window.new description directionPin motorPin
      openedPin closedPin moveTimeout) b)).1._directionPin = directionPin := hcfg.2.1
  have hmot : (run bits evs (Window.setup (Window.new description directionPin motorPin
      openedPin closedPin moveTimeout) b)).1._motorPin = motorPin := hcfg.1
  unfold DirectionInv at hinv
  rw [hdir, hmot] at hinv
  refine ⟨hinv.1, hinv.2.1, ?_⟩
  intro hst
  apply hinv.2.2
  rcases hst with hst | hst <;> rw [hst] <;> decide

/-- C17 at a concrete history of the window of the scenario (direction on pin 2, motor
on pin 3): after `open()` at clock value 0 the state is opening and the direction output
is `LOW`. -/
theorem C17_direction_invariant_witness :
    (run 32 [Event.call Command.open 0]
      (Window.setup (Window.new "scenario" 2 3 4 5 5000) Board.powerOn)).2.output 2
      = Level.LOW :=
  (C17_direction_invariant 32 "scenario" 2 3 4 5 5000 Board.powerOn
    [Event.call Command.open 0]).1 (by decide) (by decide)

/-- A member function keeps the configuration of its window, writes no latch other than
those of its direction and motor pins, and changes no input level. -/
theorem perform_frame (bits : Nat) (op : Operation) (self : Window) (b : Board) :
    (Window.perform bits op self b).1.description = self.description ∧
    (Window.perform bits op self b).1._directionPin = self._directionPin ∧
    (Window.perform bits op self b).1._motorPin = self._motorPin ∧
    (Window.perform bits op self b).1._openedPin = self._openedPin ∧
    (Window.perform bits op self b).1._closedPin = self._closedPin ∧
    (Window.perform bits op self b).1._moveTimeout = self._moveTimeout ∧
    (∀ p, p ≠ self._directionPin → p ≠ self._motorPin →
      (Window.perform bits op self b).2.output p = b.output p) ∧
    (Window.perform bits op self b).2.input = b.input := by
  cases op with
  | setup =>
    refine ⟨rfl, rfl, rfl, rfl, rfl, rfl, ?_, rfl⟩
    intro p hd hm
    simp [Window.perform, Window.setup, digitalWrite, pinMode, hd, hm]
  | command c now =>
    have hcfg := exec_config bits c now self b
    refine ⟨hcfg.1, hcfg.2.1, hcfg.2.2.1, hcfg.2.2.2.1, hcfg.2.2.2.2.1, hcfg.2.2.2.2.2,
      ?_, ?_⟩
    · intro p hd hm
      cases c
      · simp only [Window.perform, Window.exec, Window.open]
        split_ifs
        · simp [digitalWrite, Serial.println, hd, hm]
        · rfl
      · simp only [Window.perform, Window.exec, Window.close]
        split_ifs
        · simp [digitalWrite, Serial.println, hd, hm]
        · rfl
      · simp only [Window.perform, Window.exec, Window.stop]
        split_ifs
        · simp [digitalWrite, Serial.println, hd, hm]
        · rfl
      · simp only [Window.perform, Window.exec, Window.autostop]
        split_ifs
        · simp [digitalWrite, Serial.println, hd, hm]
        · simp [digitalWrite, Serial.println, hd, hm]
        · simp [digitalWrite, Serial.println, hd, hm]
        · rfl
    · cases c
      · simp only [Window.perform, Window.exec, Window.open]
        split_ifs <;> rfl
      · simp only [Window.perform, Window.exec, Window.close]
        split_ifs <;> rfl
      · simp only [Window.perform, Window.exec, Window.stop]
        split_ifs <;> rfl
      · simp only [Window.perform, Window.exec, Window.autostop]
        split_ifs <;> rfl
  | query q =>
    cases q <;> exact ⟨rfl, rfl, rfl, rfl, rfl, rfl, fun _ _ _ => rfl, rfl⟩

/-- C19: every member function (`setup`, the four commands, the four queries) leaves
the description, the four pin numbers and the timeout of its window unchanged, changes
the output level of no pin other than the direction and motor pins of its window, and
changes no input level; so with a second window whose direction and motor pins differ
from those of the first (as when the pins of the two are disjoint), a member function
called on the first leaves the second window (state, deadline), its two outputs and
what its two sensors read unchanged. -/
theorem C19_frame (bits : Nat) (op : Operation) (self other : Window) (b : Board) :
    (Window.perform bits op self b).1.description = self.description ∧
    (Window.perform bits op self b).1._directionPin = self._directionPin ∧
    (Window.perform bits op self b).1._motorPin = self._motorPin ∧
    (Window.perform bits op self b).1._openedPin = self._openedPin ∧
    (Window.perform bits op self b).1._closedPin = self._closedPin ∧
    (Window.perform bits op self b).1._moveTimeout = self._moveTimeout ∧
    (∀ p, p ≠ self._directionPin → p ≠ self._motorPin →
      (Window.perform bits op self b).2.output p = b.output p) ∧
    (Window.perform bits op self b).2.input = b.input ∧
    (performFirst bits op (self, other, b)).2.1 = other ∧
    (other.isOpen (performFirst bits op (self, other, b)).2.2 = other.isOpen b) ∧
    (other.isClosed (performFirst bits op (self, other, b)).2.2 = other.isClosed b) ∧
    (other._directionPin ≠ self._directionPin ∧ other._directionPin ≠ self._motorPin ∧
      other._motorPin ≠ self._directionPin ∧ other._motorPin ≠ self._motorPin →
      (performFirst bits op (self, other, b)).2.2.output other._directionPin
        = b.output other._directionPin ∧
      (performFirst bits op (self, other, b)).2.2.output other._motorPin
        = b.output other._motorPin) := by
  have hf := perform_frame bits op self b
  refine ⟨hf.1, hf.2.1, hf.2.2.1, hf.2.2.2.1, hf.2.2.2.2.1, hf.2.2.2.2.2.1,
    hf.2.2.2.2.2.2.1, hf.2.2.2.2.2.2.2, rfl, ?_, ?_, ?_⟩
  · simp only [performFirst, Window.isOpen, digitalRead]
    rw [hf.2.2.2.2.2.2.2]
  · simp only [performFirst, Window.isClosed, digitalRead]
    rw [hf.2.2.2.2.2.2.2]
  · rintro ⟨h1, h2, h3, h4⟩
    exact ⟨hf.2.2.2.2.2.2.1 _ h1 h2, hf.2.2.2.2.2.2.1 _ h3 h4⟩

/-- C19 at a concrete input: the window of the scenario (pins 2, 3, 4, 5) and a second
window on pins 6, 7, 8, 9 that is closing since clock value 0; `open()` on the first at
clock value 10 leaves the second closing with deadline 8000 and both its outputs
`HIGH`. -/
theorem C19_frame_witness :
    (performFirst 32 (Operation.command Command.open 10)
      (scenarioWindow, (Window.close 32 0 secondWindow Board.powerOn).1,
        (Window.close 32 0 secondWindow Board.powerOn).2)).2.1._state = CLOSING_STATE ∧
    (performFirst 32 (Operation.command Command.open 10)
      (scenarioWindow, (Window.close 32 0 secondWindow Board.powerOn).1,
        (Window.close 32 0 secondWindow Board.powerOn).2)).2.1._moveDeadline = 8000 ∧
    (performFirst 32 (Operation.command Command.open 10)
      (scenarioWindow, (Window.close 32 0 secondWindow Board.powerOn).1,
        (Window.close 32 0 secondWindow Board.powerOn).2)).2.2.output 6 = Level.HIGH ∧
    (performFirst 32 (Operation.command Command.open 10)
      (scenarioWindow, (Window.close 32 0 secondWindow Board.powerOn).1,
        (Window.close 32 0 secondWindow Board.powerOn).2)).2.2.output 7 = Level.HIGH ∧
    (performFirst 32 (Operation.command Command.open 10)
      (scenarioWindow, (Window.close 32 0 secondWindow Board.powerOn).1,
        (Window.close 32 0 secondWindow Board.powerOn).2)).1._state = OPENING_STATE :=
  have h := C19_frame 32 (Operation.command Command.open 10) scenarioWindow
    (Window.close 32 0 secondWindow Board.powerOn).1
    (Window.close 32 0 secondWindow Board.powerOn).2
  have hout := h.2.2.2.2.2.2.2.2.2.2.2 (by decide)
  ⟨by rw [h.2.2.2.2.2.2.2.2.1]; decide, by rw [h.2.2.2.2.2.2.2.2.1]; decide,
    hout.1.trans (by decide), hout.2.trans (by decide), by decide⟩

end GreenHouse
